import Mathlib

/-!
Shallow embedding of the show-finder "Classification & Extraction Core":
`text_parser.py` (`ShowTextParser`), `show_processor.py`
(`ShowProcessor.process_posts`) and the pure tail of
`ocr_extractor.py` (`OCRExtractor.extract_show_info_from_image`).

Modelling choices, all visible in the definitions below:
* Naive `datetime` values are integer seconds on a timeline (day 0 =
  1970-01-01); `replace(hour=0, ...)` is subtraction of `t % 86400`,
  `timedelta.days` is floor division by 86400 (`Int` `/` and `%` here are
  floor-based for the positive divisor 86400, as in Python).
* Python `re` matching (always invoked with `re.IGNORECASE` in the source)
  is modelled by a small backtracking engine over an explicit pattern AST
  whose preference order follows CPython: leftmost start position, ordered
  alternation, greedy (longest-first) repetition.  Character classes are
  taken case-insensitively exactly as `re.IGNORECASE` does (in particular
  `[A-Z]` matches every ASCII letter).
* `dateutil.parser.parse(s, default=ts)` is modelled by `parseDate`,
  restricted to the token shapes the six date regexes can produce
  (month names, weekday names, numbers, the `dateutil` JUMP words);
  unknown words make it fail, exactly as `dateutil` raises `ParserError`.
* The I/O half of OCR (`pytesseract`) is abstracted as a parameter
  `recover : String → Int → OcrInfo` supplying, per image path, the fields
  that `extract_show_info_from_image` would compute from the recovered text.
-/

namespace ShowFinder

/-- Epoch-day number of a proleptic-Gregorian civil date (Hinnant's
`days_from_civil`); day 0 is 1970-01-01.  Used to model ordering and
subtraction of Python `datetime` values. -/
def daysFromCivil (y m d : Int) : Int :=
  let y2 := if m ≤ 2 then y - 1 else y
  let era := y2 / 400
  let yoe := y2 - era * 400
  let mp := if 2 < m then m - 3 else m + 9
  let doy := (153 * mp + 2) / 5 + d - 1
  let doe := yoe * 365 + yoe / 4 - yoe / 100 + doy
  era * 146097 + doe - 719468

/-- Inverse of `daysFromCivil` (Hinnant's `civil_from_days`):
year, month, day of an epoch-day number. -/
def civilFromDays (z0 : Int) : Int × Int × Int :=
  let z := z0 + 719468
  let era := z / 146097
  let doe := z - era * 146097
  let yoe := (doe - doe / 1460 + doe / 36524 - doe / 146096) / 365
  let y := yoe + era * 400
  let doy := doe - (365 * yoe + yoe / 4 - yoe / 100)
  let mp := (5 * doy + 2) / 153
  let d := doy - (153 * mp + 2) / 5 + 1
  let m := if mp < 10 then mp + 3 else mp - 9
  (if m ≤ 2 then y + 1 else y, m, d)

/-- Leap-year test of the Gregorian calendar (Python `calendar.isleap`). -/
def isLeapYear (y : Int) : Bool :=
  y % 4 == 0 && (y % 100 != 0 || y % 400 == 0)

/-- Number of days of month `m` in year `y`; the `datetime` constructor
rejects a day outside `1..daysInMonth`. -/
def daysInMonth (y m : Int) : Int :=
  if m = 2 then (if isLeapYear y then 29 else 28)
  else if m = 4 ∨ m = 6 ∨ m = 9 ∨ m = 11 then 30
  else 31

/-- Python `ts.replace(hour=0, minute=0, second=0, microsecond=0)`:
the midnight that starts the calendar day of `ts`. -/
def midnightOf (ts : Int) : Int := ts - ts % 86400

/-- Zero-padded decimal rendering, as `strftime` field formatting. -/
def padNum (width : Nat) (n : Int) : String :=
  let s := toString n
  if s.length < width then String.mk (List.replicate (width - s.length) '0') ++ s
  else s

/-- Python `dt.strftime(\x7b: nothing :\x7d'%Y-%m-%d')` on the modelled timeline. -/
def fmtDate (t : Int) : String :=
  let c := civilFromDays (t / 86400)
  padNum 4 c.1 ++ "-" ++ padNum 2 c.2.1 ++ "-" ++ padNum 2 c.2.2

/-! ## A Python-`re` style backtracking matcher

Only the constructs occurring in the source's eleven patterns are
represented: character classes, ordered alternation of literal strings,
concatenation, greedy option, greedy character-class repetition with
bounds, one capturing group, and the word-boundary assertion.  All
matching is case-insensitive, exactly like the source, which passes
`re.IGNORECASE` to every `re.search`/`re.finditer` call it makes. -/

/-- Pattern AST. -/
inductive Re where
  | eps : Re
  | cls (p : Char → Bool) : Re
  | lits (ss : List (List Char)) : Re
  | seq (a b : Re) : Re
  | opt (a : Re) : Re
  | reps (p : Char → Bool) (mn : Nat) (mx : Option Nat) : Re
  | grp (a : Re) : Re
  | wordB : Re

/-- Matcher state: the last consumed character (for the word-boundary
assertion), the remaining input, and the group-1 capture so far. -/
structure MSt where
  prev : Option Char
  rest : List Char
  capt : Option (List Char)

/-- Python `\w`: ASCII letters, digits and underscore
(inputs here are ASCII). -/
def isWordChar (c : Char) : Bool :=
  ('a' ≤ c && c ≤ 'z') || ('A' ≤ c && c ≤ 'Z') || ('0' ≤ c && c ≤ '9') || c == '_'

/-- The `\b` assertion holds where word-ness changes, text edges counting
as non-word. -/
def atBoundary (st : MSt) : Bool :=
  let l := match st.prev with
    | none => false
    | some c => isWordChar c
  let r := match st.rest with
    | [] => false
    | c :: _ => isWordChar c
  l != r

/-- Consume a literal, case-insensitively (`re.IGNORECASE`). -/
def eatLit : List Char → MSt → Option MSt
  | [], st => some st
  | c :: cs, st =>
    match st.rest with
    | [] => none
    | d :: ds =>
      if c.toLower == d.toLower then eatLit cs { prev := some d, rest := ds, capt := st.capt }
      else none

/-- Try literal alternatives in their written order, backtracking through
the continuation `k` — CPython's leftmost-alternative preference. -/
def matLits (k : MSt → Option MSt) : List (List Char) → MSt → Option MSt
  | [], _ => none
  | s :: ss, st =>
    match eatLit s st with
    | some st1 =>
      match k st1 with
      | some r => some r
      | none => matLits k ss st
    | none => matLits k ss st

/-- Length of the maximal prefix of `l` satisfying `p`. -/
def clsRun (p : Char → Bool) : List Char → Nat
  | [] => 0
  | c :: cs => if p c then clsRun p cs + 1 else 0

/-- Advance the state by `n` characters. -/
def advSt : MSt → Nat → MSt
  | st, 0 => st
  | st, n + 1 =>
    match st.rest with
    | [] => st
    | c :: cs => advSt { prev := some c, rest := cs, capt := st.capt } n

/-- Greedy repetition: try the repetition count `hi` first, then count
down to `mn` — CPython's longest-first backtracking. -/
def tryCounts (st : MSt) (k : MSt → Option MSt) (mn : Nat) : Nat → Option MSt
  | 0 => k st
  | hi + 1 =>
    match k (advSt st (hi + 1)) with
    | some r => some r
    | none => if hi + 1 ≤ mn then none else tryCounts st k mn hi

/-- The CPS backtracking matcher.  `k` is the continuation for the rest of
the pattern; the first success in CPython preference order is returned. -/
def Re.mat : Re → MSt → (MSt → Option MSt) → Option MSt
  | .eps, st, k => k st
  | .cls p, st, k =>
    match st.rest with
    | [] => none
    | c :: cs => if p c then k { prev := some c, rest := cs, capt := st.capt } else none
  | .lits ss, st, k => matLits k ss st
  | .seq a b, st, k => a.mat st (fun st1 => b.mat st1 k)
  | .opt a, st, k =>
    (match a.mat st k with
     | some r => some r
     | none => k st)
  | .reps p mn mx, st, k =>
    let run := clsRun p st.rest
    let hi := match mx with
      | none => run
      | some m => min run m
    if hi < mn then none else tryCounts st k mn hi
  | .grp a, st, k =>
    a.mat st (fun st1 =>
      k { st1 with capt := some (st.rest.take (st.rest.length - st1.rest.length)) })
  | .wordB, st, k => if atBoundary st then k st else none

/-- One match: the full matched text (`group(0)`) and the group-1 capture. -/
structure RMatch where
  m0 : List Char
  m1 : Option (List Char)
deriving DecidableEq, Repr

/-- Attempt an anchored match of `r` at the state `(prev, s)`; on success
return the consumed length and the capture. -/
def reMatchAt (r : Re) (prev : Option Char) (s : List Char) : Option (Nat × Option (List Char)) :=
  match r.mat { prev := prev, rest := s, capt := none } some with
  | some st1 => some (s.length - st1.rest.length, st1.capt)
  | none => none

/-- Scan for successive non-overlapping matches, as `re.finditer`:
try each start position left to right, resume after each match. -/
def findItAux (r : Re) : Nat → Option Char → List Char → List RMatch
  | 0, _, _ => []
  | fuel + 1, prev, s =>
    match reMatchAt r prev s with
    | some (len, g) =>
      if len = 0 then
        match s with
        | [] => [{ m0 := [], m1 := g }]
        | c :: cs => { m0 := [], m1 := g } :: findItAux r fuel (some c) cs
      else
        { m0 := s.take len, m1 := g } ::
          findItAux r fuel ((s.take len).getLast?) (s.drop len)
    | none =>
      match s with
      | [] => []
      | c :: cs => findItAux r fuel (some c) cs

/-- `re.finditer(pattern, text, re.IGNORECASE)`. -/
def reFindIter (r : Re) (s : List Char) : List RMatch :=
  findItAux r (s.length + 1) none s

/-- `re.search(pattern, text, re.IGNORECASE)` viewed as a Boolean. -/
def reSearch (r : Re) (s : List Char) : Bool :=
  !(reFindIter r s).isEmpty

/-! ## Character classes of the source patterns (under `re.IGNORECASE`) -/

/-- `\d` (ASCII). -/
def isDigitC (c : Char) : Bool := '0' ≤ c && c ≤ '9'

/-- `\s` (ASCII whitespace, as Python). -/
def isSpaceC (c : Char) : Bool :=
  c == ' ' || c == '\t' || c == '\n' || c == '\r' || c == '\x0b' || c == '\x0c'

/-- The class `[A-Z]` as compiled with `re.IGNORECASE`: every ASCII letter. -/
def classUpper (c : Char) : Bool :=
  ('A' ≤ c && c ≤ 'Z') || ('a' ≤ c && c ≤ 'z')

/-- The class `[a-zA-Z\s&]`. -/
def classNameChar (c : Char) : Bool :=
  ('a' ≤ c && c ≤ 'z') || ('A' ≤ c && c ≤ 'Z') || isSpaceC c || c == '&'

/-- The class `[a-zA-Z0-9_]`. -/
def classHandleChar (c : Char) : Bool :=
  ('a' ≤ c && c ≤ 'z') || ('A' ≤ c && c ≤ 'Z') || ('0' ≤ c && c ≤ '9') || c == '_'

/-- The two-character class holding the slash and the dash. -/
def classSlashDash (c : Char) : Bool := c == '/' || c == '-'

/-- Concatenation of a pattern list. -/
def seqL (rs : List Re) : Re := rs.foldr Re.seq Re.eps

/-- The month-name alternation of the source, in its written order
(short forms precede long forms, so the engine tries them first). -/
def monthLits : List (List Char) :=
  (["Jan", "January", "Feb", "February", "Mar", "March", "Apr", "April",
    "May", "Jun", "June", "Jul", "July", "Aug", "August", "Sep", "September",
    "Oct", "October", "Nov", "November", "Dec", "December"]).map String.toList

/-- The weekday alternation of the source, in its written order. -/
def weekdayLits : List (List Char) :=
  (["Mon", "Monday", "Tue", "Tuesday", "Wed", "Wednesday", "Thu", "Thursday",
    "Fri", "Friday", "Sat", "Saturday", "Sun", "Sunday"]).map String.toList

/-- The ordinal suffixes `(?:st|nd|rd|th)`. -/
def ordLits : List (List Char) :=
  (["st", "nd", "rd", "th"]).map String.toList

/-- `DATE_PATTERNS[0]`:
`\b(Jan|...|December)\s+\d{1,2}(?:st|nd|rd|th)?(?:,\s*\d{4})?\b`. -/
def datePat0 : Re :=
  seqL [Re.wordB, Re.grp (Re.lits monthLits), Re.reps isSpaceC 1 none,
    Re.reps isDigitC 1 (some 2), Re.opt (Re.lits ordLits),
    Re.opt (seqL [Re.lits [",".toList], Re.reps isSpaceC 0 none,
      Re.reps isDigitC 4 (some 4)]),
    Re.wordB]

/-- `DATE_PATTERNS[1]`: `\b\d{1,2}[S]\d{1,2}(?:[S]\d{2,4})?\b`, writing
`[S]` for the slash-or-dash class (the MM/DD/YYYY or DD/MM/YYYY pattern). -/
def datePat1 : Re :=
  seqL [Re.wordB, Re.reps isDigitC 1 (some 2), Re.cls classSlashDash,
    Re.reps isDigitC 1 (some 2),
    Re.opt (seqL [Re.cls classSlashDash, Re.reps isDigitC 2 (some 4)]),
    Re.wordB]

/-- `DATE_PATTERNS[2]`:
`\b(Mon|...|Sunday)\s+(?:the\s+)?\d{1,2}(?:st|nd|rd|th)?\b`. -/
def datePat2 : Re :=
  seqL [Re.wordB, Re.grp (Re.lits weekdayLits), Re.reps isSpaceC 1 none,
    Re.opt (seqL [Re.lits ["the".toList], Re.reps isSpaceC 1 none]),
    Re.reps isDigitC 1 (some 2), Re.opt (Re.lits ordLits), Re.wordB]

/-- `DATE_PATTERNS[3]`: `\b(?:on|at|this|next)\s+(Mon|...|Sunday)\b`. -/
def datePat3 : Re :=
  seqL [Re.wordB, Re.lits (["on", "at", "this", "next"].map String.toList),
    Re.reps isSpaceC 1 none, Re.grp (Re.lits weekdayLits), Re.wordB]

/-- `DATE_PATTERNS[4]`: `\b(?:tonight|tomorrow|today)\b`. -/
def datePat4 : Re :=
  seqL [Re.wordB, Re.lits (["tonight", "tomorrow", "today"].map String.toList), Re.wordB]

/-- `DATE_PATTERNS[5]`:
`\b\d{1,2}(?:st|nd|rd|th)?\s+(?:of\s+)?(Jan|...|December)\b`. -/
def datePat5 : Re :=
  seqL [Re.wordB, Re.reps isDigitC 1 (some 2), Re.opt (Re.lits ordLits),
    Re.reps isSpaceC 1 none,
    Re.opt (seqL [Re.lits ["of".toList], Re.reps isSpaceC 1 none]),
    Re.grp (Re.lits monthLits), Re.wordB]

/-- `ShowTextParser.DATE_PATTERNS`, in source order. -/
def DATE_PATTERNS : List Re :=
  [datePat0, datePat1, datePat2, datePat3, datePat4, datePat5]

/-- `TIME_PATTERNS[0]`: `\b\d{1,2}:\d{2}\s*(?:AM|PM|am|pm)\b`. -/
def timePat0 : Re :=
  seqL [Re.wordB, Re.reps isDigitC 1 (some 2), Re.lits [":".toList],
    Re.reps isDigitC 2 (some 2), Re.reps isSpaceC 0 none,
    Re.lits (["AM", "PM", "am", "pm"].map String.toList), Re.wordB]

/-- `TIME_PATTERNS[1]`: `\b\d{1,2}:\d{2}\b`. -/
def timePat1 : Re :=
  seqL [Re.wordB, Re.reps isDigitC 1 (some 2), Re.lits [":".toList],
    Re.reps isDigitC 2 (some 2), Re.wordB]

/-- `TIME_PATTERNS[2]`:
`\b(?:doors|show|starts?)\s+(?:at|@)?\s*\d{1,2}(?::\d{2})?\s*(?:AM|PM|am|pm)?\b`.
The branch `starts?` unfolds to the ordered alternatives `starts`, `start`. -/
def timePat2 : Re :=
  seqL [Re.wordB, Re.lits (["doors", "show", "starts", "start"].map String.toList),
    Re.reps isSpaceC 1 none, Re.opt (Re.lits (["at", "@"].map String.toList)),
    Re.reps isSpaceC 0 none, Re.reps isDigitC 1 (some 2),
    Re.opt (seqL [Re.lits [":".toList], Re.reps isDigitC 2 (some 2)]),
    Re.reps isSpaceC 0 none,
    Re.opt (Re.lits (["AM", "PM", "am", "pm"].map String.toList)), Re.wordB]

/-- `ShowTextParser.TIME_PATTERNS`, in source order. -/
def TIME_PATTERNS : List Re := [timePat0, timePat1, timePat2]

/-- `location_patterns[0]`:
`(?:at|@)\s+([A-Z][a-zA-Z\s&]+(?:Theatre|Theater|Hall|Venue|Club|Bar|Lounge|Cafe|Café|Pub|Arena|Stadium))`. -/
def locPat0 : Re :=
  seqL [Re.lits (["at", "@"].map String.toList), Re.reps isSpaceC 1 none,
    Re.grp (seqL [Re.cls classUpper, Re.reps classNameChar 1 none,
      Re.lits ((["Theatre", "Theater", "Hall", "Venue", "Club", "Bar",
        "Lounge", "Cafe", "Café", "Pub", "Arena", "Stadium"]).map String.toList)])]

/-- `location_patterns[1]`: `(?:at|@)\s+([A-Z][a-zA-Z\s&]{3,30})`. -/
def locPat1 : Re :=
  seqL [Re.lits (["at", "@"].map String.toList), Re.reps isSpaceC 1 none,
    Re.grp (seqL [Re.cls classUpper, Re.reps classNameChar 3 (some 30)])]

/-- `location_patterns[2]`: `@([a-zA-Z0-9_]+)` (Instagram location tags). -/
def locPat2 : Re :=
  seqL [Re.lits ["@".toList], Re.grp (Re.reps classHandleChar 1 none)]

/-- The `location_patterns` list of `extract_location`, in source order. -/
def LOCATION_PATTERNS : List Re := [locPat0, locPat1, locPat2]

/-! ## String helpers mirroring Python built-ins -/

/-- Python `str.lower()` (ASCII; all texts in scope are ASCII). -/
def pyLower (s : String) : List Char := s.toList.map Char.toLower

/-- Whether `needle` starts `hay`. -/
def startsWithL : List Char → List Char → Bool
  | [], _ => true
  | _ :: _, [] => false
  | a :: as2, b :: bs => a == b && startsWithL as2 bs

/-- Python substring membership `needle in hay`. -/
def containsL (needle : List Char) : List Char → Bool
  | [] => startsWithL needle []
  | c :: cs => startsWithL needle (c :: cs) || containsL needle cs

/-- Python `str.strip()` (ASCII whitespace). -/
def pyStrip (s : List Char) : List Char :=
  ((s.dropWhile isSpaceC).reverse.dropWhile isSpaceC).reverse

/-! ## A model of `dateutil.parser.parse(s, default=post_timestamp)`

Restricted to the token shapes the six date regexes can produce.  The
lexer splits the candidate into letter runs, digit runs and single
symbols; the recognizer accepts month names, weekday names, numbers and
`dateutil`'s JUMP words, and fails on anything else — which is exactly
how `dateutil` raises `ParserError` on candidates such as "tonight" or
"this Friday" ("this" is not a JUMP word). -/

/-- Lexer token. -/
inductive Tok where
  | word (s : List Char) : Tok
  | num (v : Nat) (len : Nat) : Tok
  | sym (c : Char) : Tok
deriving DecidableEq, Repr

/-- ASCII letter test. -/
def isAlphaC (c : Char) : Bool :=
  ('a' ≤ c && c ≤ 'z') || ('A' ≤ c && c ≤ 'Z')

/-- Greedy split at the first character violating `p`. -/
def grabWhile (p : Char → Bool) : List Char → List Char × List Char
  | [] => ([], [])
  | c :: cs =>
    if p c then
      let r := grabWhile p cs
      (c :: r.1, r.2)
    else ([], c :: cs)

/-- Numeric value of a digit run. -/
def natOfDigits (cs : List Char) : Nat :=
  cs.foldl (fun a c => a * 10 + (c.toNat - 48)) 0

/-- The lexer (`dateutil._timelex`, restricted: every whitespace character
becomes an ordinary symbol, as the real lexer maps it to a space token).
The fuel argument only justifies termination: every step consumes at
least one character, so `fuel = length` never runs out. -/
def tokenizeAux : Nat → List Char → List Tok
  | 0, _ => []
  | _, [] => []
  | fuel + 1, c :: cs =>
    if isAlphaC c then
      let g := grabWhile isAlphaC cs
      Tok.word (c :: g.1) :: tokenizeAux fuel g.2
    else if isDigitC c then
      let g := grabWhile isDigitC cs
      Tok.num (natOfDigits (c :: g.1)) (g.1.length + 1) :: tokenizeAux fuel g.2
    else Tok.sym c :: tokenizeAux fuel cs

/-- Tokenize a candidate date string. -/
def tokenize (s : List Char) : List Tok := tokenizeAux s.length s

/-- Month-name table of `dateutil` (lower-cased), month numbers 1-12. -/
def monthWords : List (List Char × Int) :=
  [("jan".toList, 1), ("january".toList, 1), ("feb".toList, 2), ("february".toList, 2),
   ("mar".toList, 3), ("march".toList, 3), ("apr".toList, 4), ("april".toList, 4),
   ("may".toList, 5), ("jun".toList, 6), ("june".toList, 6), ("jul".toList, 7),
   ("july".toList, 7), ("aug".toList, 8), ("august".toList, 8), ("sep".toList, 9),
   ("sept".toList, 9), ("september".toList, 9), ("oct".toList, 10), ("october".toList, 10),
   ("nov".toList, 11), ("november".toList, 11), ("dec".toList, 12), ("december".toList, 12)]

/-- Weekday-name table of `dateutil` (lower-cased), Monday = 0. -/
def weekdayWords : List (List Char × Int) :=
  [("mon".toList, 0), ("monday".toList, 0), ("tue".toList, 1), ("tuesday".toList, 1),
   ("wed".toList, 2), ("wednesday".toList, 2), ("thu".toList, 3), ("thursday".toList, 3),
   ("fri".toList, 4), ("friday".toList, 4), ("sat".toList, 5), ("saturday".toList, 5),
   ("sun".toList, 6), ("sunday".toList, 6)]

/-- `dateutil.parserinfo.JUMP` word entries (lower-cased).  Note that
"the", "this", "next", "tonight", "today" and "tomorrow" are absent, so a
candidate containing them makes the parse fail. -/
def jumpWords : List (List Char) :=
  (["at", "on", "and", "ad", "m", "t", "of", "st", "nd", "rd", "th"]).map String.toList

/-- JUMP symbol entries: whitespace, dot, comma, semicolon, dash, slash.
(The apostrophe is also a JUMP symbol in `dateutil` but cannot occur in
any candidate the six regexes produce.) -/
def isJumpSym (c : Char) : Bool :=
  isSpaceC c || c == '.' || c == ',' || c == ';' || c == '-' || c == '/'

/-- Facts gathered from the token stream. -/
structure DInfo where
  month : Option Int
  weekday : Option Int
  nums : List (Nat × Nat)
  bad : Bool
deriving Repr

/-- Recognize one token into an accumulating `DInfo`. -/
def feedTok (info : DInfo) : Tok → DInfo
  | Tok.word w =>
    let lw := w.map Char.toLower
    match (monthWords.lookup lw), (weekdayWords.lookup lw) with
    | some m, _ =>
      (match info.month with
       | none => { info with month := some m }
       | some _ => { info with bad := true })
    | none, some wd =>
      (match info.weekday with
       | none => { info with weekday := some wd }
       | some _ => { info with bad := true })
    | none, none =>
      if jumpWords.contains lw then info else { info with bad := true }
  | Tok.num v len => { info with nums := info.nums ++ [(v, len)] }
  | Tok.sym c => if isJumpSym c then info else { info with bad := true }

/-- Run the recognizer over the whole token stream. -/
def analyze (toks : List Tok) : DInfo :=
  toks.foldl feedTok { month := none, weekday := none, nums := [], bad := false }

/-- Calendar year of the timeline instant `ts` (a `datetime` default). -/
def yearOf (ts : Int) : Int := (civilFromDays (ts / 86400)).1

/-- Calendar month of `ts`. -/
def monthOf (ts : Int) : Int := (civilFromDays (ts / 86400)).2.1

/-- Calendar day-of-month of `ts`. -/
def dayOf (ts : Int) : Int := (civilFromDays (ts / 86400)).2.2

/-- `dateutil` two-digit-year widening (`parserinfo.convertyear`),
anchored at the reference year.  (`dateutil` anchors at the wall-clock
year; candidates in scope carry four-digit years, where both agree.) -/
def convertYear (anchor : Int) (v : Nat) (len : Nat) : Int :=
  if 3 ≤ len then (v : Int)
  else
    let y := (v : Int) + (anchor / 100) * 100
    if 50 ≤ (y - anchor).natAbs then (if y < anchor then y + 100 else y - 100) else y

/-- Resolve the gathered facts into `(year, month, day, weekday)` fields,
each optional, mirroring `dateutil`'s year/month/day assignment for the
shapes in scope: a named month takes its following number as the day (and
an optional further number as the year); two or three plain numbers are
taken month-first, falling back to day-first exactly when the first
number cannot be a month; a lone number is a day (or, with four digits, a
year). -/
def resolveYMD (anchor : Int) (info : DInfo) :
    Option (Option Int × Option Int × Option Int × Option Int) :=
  if info.bad then none
  else
    match info.month with
    | some m =>
      match info.nums with
      | [] => some (none, some m, none, info.weekday)
      | [(a, _)] => some (none, some m, some (a : Int), info.weekday)
      | [(a, _), (b, blen)] =>
        some (some (convertYear anchor b blen), some m, some (a : Int), info.weekday)
      | _ => none
    | none =>
      match info.nums with
      | [] =>
        match info.weekday with
        | some _ => some (none, none, none, info.weekday)
        | none => none
      | [(a, alen)] =>
        if alen = 4 then some (some (a : Int), none, none, info.weekday)
        else some (none, none, some (a : Int), info.weekday)
      | [(a, _), (b, _)] =>
        if a ≤ 12 then some (none, some (a : Int), some (b : Int), info.weekday)
        else if b ≤ 12 then some (none, some (b : Int), some (a : Int), info.weekday)
        else none
      | [(a, _), (b, _), (c, clen)] =>
        if a ≤ 12 then
          some (some (convertYear anchor c clen), some (a : Int), some (b : Int), info.weekday)
        else if b ≤ 12 then
          some (some (convertYear anchor c clen), some (b : Int), some (a : Int), info.weekday)
        else none
      | _ => none

/-- Build the parsed `datetime`: absent fields default from `ts`
(`default=post_timestamp`), the `datetime` constructor validates the day,
and a weekday with no explicit day advances to the next such weekday
(`relativedelta(weekday=...)`), keeping `ts`'s time of day throughout. -/
def buildDate (ts : Int) : Option Int × Option Int × Option Int × Option Int → Option Int
  | (yO, mO, dO, wO) =>
    let y := yO.getD (yearOf ts)
    let m := mO.getD (monthOf ts)
    let d := dO.getD (dayOf ts)
    if 1 ≤ m ∧ m ≤ 12 ∧ 1 ≤ d ∧ d ≤ daysInMonth y m then
      let base := daysFromCivil y m d
      let base2 :=
        match wO, dO with
        | some w, none => base + (w - (base + 3) % 7) % 7
        | _, _ => base
      some (base2 * 86400 + ts % 86400)
    else none

/-- The model of `dateutil.parser.parse(s, default=post_timestamp)`
(`None` = `ParserError`). -/
def parseDate (s : List Char) (ts : Int) : Option Int :=
  match resolveYMD (yearOf ts) (analyze (tokenize s)) with
  | none => none
  | some fields => buildDate ts fields

/-! ## `ShowTextParser` -/

/-- `ShowTextParser.SHOW_KEYWORDS`, in source order. -/
def SHOW_KEYWORDS : List (List Char) :=
  (["show", "concert", "gig", "performance", "event", "live",
    "tickets", "doors", "opening", "headliner", "support",
    "venue", "playing", "performing", "on stage", "tour",
    "tonight", "this week", "coming", "upcoming"]).map String.toList

/-- The smaller event-word list of `is_show_post`. -/
def EVENT_WORDS : List (List Char) :=
  (["ticket", "door", "venue", "stage", "live"]).map String.toList

/-- `sum(1 for keyword in SHOW_KEYWORDS if keyword in text_lower)`. -/
def keywordCount (text : String) : Nat :=
  SHOW_KEYWORDS.countP (fun k => containsL k (pyLower text))

/-- `any(re.search(pattern, text, re.IGNORECASE) for pattern in DATE_PATTERNS)`. -/
def hasDatePattern (text : String) : Bool :=
  DATE_PATTERNS.any (fun r => reSearch r text.toList)

/-- `any(word in text_lower for word in ['ticket', 'door', 'venue', 'stage', 'live'])`. -/
def hasEventWord (text : String) : Bool :=
  EVENT_WORDS.any (fun w => containsL w (pyLower text))

/-- `ShowTextParser.is_show_post`. -/
def is_show_post (text : String) : Bool :=
  if text = "" then false
  else if 2 ≤ keywordCount text then true
  else hasDatePattern text && hasEventWord text

/-- The acceptance window of `extract_date` (lines 94-98): on or after the
reference midnight, or, via `timedelta.days`, floor-division of the
backward distance by 86400 at most 7. -/
def acceptDate (ts d : Int) : Bool :=
  decide (midnightOf ts ≤ d) || decide ((ts - d) / 86400 ≤ 7)

/-- One candidate of the `extract_date` loop body: parse (a failure is
swallowed by the bare `except`) and keep the date only if accepted. -/
def tryCand (ts : Int) (s : List Char) : Option Int :=
  match parseDate s ts with
  | none => none
  | some d => if acceptDate ts d then some d else none

/-- The `group(0)` strings delivered to the loop of `extract_date`, in
pattern-priority order and, within a pattern, `finditer` order. -/
def dateCandidates (text : String) : List (List Char) :=
  (DATE_PATTERNS.map (fun r => (reFindIter r text.toList).map RMatch.m0)).flatten

/-- `ShowTextParser.extract_date` (returning the timeline instant; the
caller renders it with `strftime`). -/
def extract_date (text : String) (ts : Int) : Option Int :=
  if text = "" then none
  else
    match (dateCandidates text).findSome? (tryCand ts) with
    | some d => some d
    | none =>
      let lower := pyLower text
      if containsL ("tonight".toList) lower || containsL ("today".toList) lower then
        some (midnightOf ts + 20 * 3600)
      else if containsL ("tomorrow".toList) lower then
        some (midnightOf ts + 86400 + 20 * 3600)
      else none

/-- `ShowTextParser.extract_location`. -/
def extract_location (text : String) : Option String :=
  if text = "" then none
  else
    LOCATION_PATTERNS.findSome? (fun r =>
      (reFindIter r text.toList).findSome? (fun m =>
        match m.m1 with
        | none => none
        | some g =>
          let location := pyStrip g
          if 2 < location.length ∧ location.length < 100 then some (String.mk location)
          else none))

/-- `ShowTextParser.extract_time`: the first match of the first matching
pattern, stripped. -/
def extract_time (text : String) : Option String :=
  if text = "" then none
  else
    TIME_PATTERNS.findSome? (fun r =>
      match reFindIter r text.toList with
      | [] => none
      | m :: _ => some (String.mk (pyStrip m.m0)))

/-- Output of `ShowTextParser.parse_show_info`. -/
structure CaptionInfo where
  date : Option String
  location : Option String
  time : Option String
  is_show : Bool
deriving DecidableEq, Repr

/-- `ShowTextParser.parse_show_info`. -/
def parse_show_info (caption : String) (ts : Int) : CaptionInfo :=
  if caption = "" then { date := none, location := none, time := none, is_show := false }
  else if is_show_post caption then
    { date := (extract_date caption ts).map fmtDate,
      location := extract_location caption,
      time := extract_time caption,
      is_show := true }
  else { date := none, location := none, time := none, is_show := false }

/-! ## `ShowProcessor.process_posts`

The scraper and the OCR engine are I/O collaborators; a post carries its
already-fetched fields, and OCR is a parameter `recover` mapping an image
path and the post timestamp to the field dictionary that
`OCRExtractor.extract_show_info_from_image` would return (its pure tail,
`ocrInfoOfText`, is also modelled below).  Python truthiness of an
optional string (`None` and `""` are falsy) is `truthy`. -/

/-- Result dictionary of `OCRExtractor.extract_show_info_from_image`. -/
structure OcrInfo where
  date : Option String
  location : Option String
  time : Option String
deriving DecidableEq, Repr

/-- The pure tail of `extract_show_info_from_image` (lines 89-102 of
`ocr_extractor.py`), applied to the text recovered from the image
(`none` when OCR is unavailable or failed). -/
def ocrInfoOfText (extracted_text : Option String) (ts : Int) : OcrInfo :=
  match extracted_text with
  | none => { date := none, location := none, time := none }
  | some t =>
    if t = "" then { date := none, location := none, time := none }
    else
      { date := (extract_date t ts).map fmtDate,
        location := extract_location t,
        time := extract_time t }

/-- Python truthiness of an optional string. -/
def truthy : Option String → Bool
  | none => false
  | some s => s != ""

/-- Python `x or 'Unknown'` on an optional string field. -/
def orUnknown : Option String → String
  | none => "Unknown"
  | some s => if s = "" then "Unknown" else s

/-- Contents of `x` under the guard `truthy x`. -/
def getS : Option String → String
  | none => ""
  | some s => s

/-- An input post, as fetched by the scraper (`local_image_path` is
`none` for a falsy path). -/
structure Post where
  post_url : String
  username : String
  caption : String
  timestamp : Int
  local_image_path : Option String
deriving DecidableEq, Repr

/-- Python truthiness of `post['local_image_path']`. -/
def imagePresent (post : Post) : Bool :=
  match post.local_image_path with
  | none => false
  | some p => p != ""

/-- The condition of line 69 of `show_processor.py`, over the caption
extraction `ci` of the post:
`(not show_info['date'] or show_info['location'] == 'Unknown') and post['local_image_path']`. -/
def needsOcr (ci : CaptionInfo) (post : Post) : Bool :=
  (!truthy ci.date || orUnknown ci.location == "Unknown") && imagePresent post

/-- Line 76-77: `if not show_info['date'] and ocr_info['date']`. -/
def mergeDate (date0 : Option String) (oi : OcrInfo) : Option String :=
  if !truthy date0 && truthy oi.date then oi.date else date0

/-- Line 79-80: `if show_info['location'] == 'Unknown' and ocr_info['location']`. -/
def mergeLoc (loc0 : String) (oi : OcrInfo) : String :=
  if loc0 == "Unknown" && truthy oi.location then getS oi.location else loc0

/-- Line 82-83: `if show_info['time'] == 'Unknown' and ocr_info['time']`. -/
def mergeTime (time0 : String) (oi : OcrInfo) : String :=
  if time0 == "Unknown" && truthy oi.time then getS oi.time else time0

/-- An emitted show dictionary. -/
structure ShowInfo where
  post_url : String
  username : String
  display_name : String
  caption : String
  date : String
  location : String
  time : String
deriving DecidableEq, Repr

/-- Lines 58-83 of `show_processor.py`: the `(date, location, time)`
triple after defaulting the caption fields and, when line 69 triggers,
filling gaps from the OCR dictionary. -/
def mergedOf (recover : String → Int → OcrInfo) (ci : CaptionInfo) (post : Post) :
    Option String × String × String :=
  if needsOcr ci post then
    let oi := recover (getS post.local_image_path) post.timestamp
    (mergeDate ci.date oi, mergeLoc (orUnknown ci.location) oi, mergeTime (orUnknown ci.time) oi)
  else (ci.date, orUnknown ci.location, orUnknown ci.time)

/-- The assembled `show_info` dictionary, after the line 86-87 date
defaulting (Python `if not show_info['date']`). -/
def recordOf (recover : String → Int → OcrInfo) (nickname_map : List (String × String))
    (ci : CaptionInfo) (post : Post) : ShowInfo :=
  let m := mergedOf recover ci post
  { post_url := post.post_url, username := post.username,
    display_name :=
      match nickname_map.lookup post.username with
      | some n => n
      | none => post.username,
    caption := post.caption,
    date := if truthy m.1 then getS m.1 else "Unknown",
    location := m.2.1, time := m.2.2 }

/-- The record emitted for one post by the loop body of
`ShowProcessor.process_posts` (lines 42-91): `none` when the classifier
rejects the caption (line 50) or the line 90 inclusion filter fails. -/
def emitOf (recover : String → Int → OcrInfo) (nickname_map : List (String × String))
    (post : Post) : Option ShowInfo :=
  let ci := parse_show_info post.caption post.timestamp
  if ci.is_show then
    let record := recordOf recover nickname_map ci post
    if record.date != "Unknown" || record.location != "Unknown" then some record else none
  else none

/-- How many times the loop body invokes
`OCRExtractor.extract_show_info_from_image` for one post: the single
call site sits behind the line 50 gate and the line 69 condition. -/
def ocrCalls (post : Post) : Nat :=
  let ci := parse_show_info post.caption post.timestamp
  if ci.is_show then (if needsOcr ci post then 1 else 0) else 0

/-- The per-post body of `ShowProcessor.process_posts`: the produced
record, if any, and the number of OCR invocations made. -/
def processPost (recover : String → Int → OcrInfo) (nickname_map : List (String × String))
    (post : Post) : Option ShowInfo × Nat :=
  (emitOf recover nickname_map post, ocrCalls post)

/-- `ShowProcessor.process_posts` over a post list: the emitted records,
in input order. -/
def process_posts (recover : String → Int → OcrInfo) (nickname_map : List (String × String))
    (posts : List Post) : List ShowInfo :=
  posts.filterMap (fun p => (processPost recover nickname_map p).1)

/-! ## Concrete artifacts used by several claim statements -/

/-- The reference timestamp 2024-06-10T12:00:00 of the end-to-end
scenario, as a timeline instant. -/
def ts2024_06_10 : Int := daysFromCivil 2024 6 10 * 86400 + 12 * 3600

/-- An OCR collaborator that recovers nothing. -/
def ocrNothing : String → Int → OcrInfo :=
  fun _ _ => { date := none, location := none, time := none }

/-- A caption whose extracted location is the literal string "Unknown"
(the venue-type and generic patterns match "at Unknown"). -/
def c1caption : String := "Show tonight at Unknown"

/-- A post carrying `c1caption` and an image. -/
def c1post : Post :=
  { post_url := "p1", username := "venue1", caption := c1caption,
    timestamp := ts2024_06_10, local_image_path := some ("poster.jpg") }

/-- An OCR collaborator recovering only a location. -/
def c1ocr : String → Int → OcrInfo :=
  fun _ _ => { date := none, location := some ("The Venue"), time := none }

/-- A caption yielding date 2024-05-01 and neither location nor time. -/
def fillCaption : String := "Show on 5/1, tickets available"

/-- The reference timestamp 2024-04-25T12:00:00. -/
def tsApr25 : Int := daysFromCivil 2024 4 25 * 86400 + 12 * 3600

/-- A post carrying `fillCaption` and an image. -/
def fillPost : Post :=
  { post_url := "p2", username := "venue2", caption := fillCaption,
    timestamp := tsApr25, local_image_path := some ("poster.jpg") }

/-- An OCR collaborator recovering a conflicting date and a location. -/
def fillOcr : String → Int → OcrInfo :=
  fun _ _ => { date := some ("2024-05-02"), location := some ("The Venue"), time := none }

/-- A caption yielding a location but neither date nor time. -/
def c5caption : String := "live music at Moonlight Lounge, tickets available"

/-- A post carrying `c5caption` and an image. -/
def c5post : Post :=
  { post_url := "p3", username := "venue3", caption := c5caption,
    timestamp := ts2024_06_10, local_image_path := some ("poster.jpg") }

/-- An OCR collaborator recovering a date and a time. -/
def c5ocr : String → Int → OcrInfo :=
  fun _ _ => { date := some ("2024-06-12"), location := none, time := some ("9:00 PM") }

/-- A show caption with no date information at all and no image: its
merged result has both date and location equal to "Unknown". -/
def dropPost : Post :=
  { post_url := "p4", username := "v", caption := "live music tickets available now",
    timestamp := ts2024_06_10, local_image_path := none }

/-- A post whose merged result has date "Unknown" and a concrete location. -/
def keepPost : Post :=
  { post_url := "p5", username := "v", caption := c5caption,
    timestamp := ts2024_06_10, local_image_path := none }

/-- The record the aggregation emits for `keepPost`. -/
def keepRecord : ShowInfo :=
  { post_url := "p5", username := "v", display_name := "v", caption := c5caption,
    date := "Unknown", location := "Moonlight Lounge", time := "Unknown" }

/-- The spec's non-event caption, with an image attached. -/
def sunsetPost : Post :=
  { post_url := "p6", username := "v", caption := "Beautiful sunset over the city",
    timestamp := ts2024_06_10, local_image_path := some ("poster.jpg") }

/-- The end-to-end scenario caption. -/
def caption9 : String := "Live tonight at The Blue Note, doors at 7:00 PM! Tickets at the door."

/-- The end-to-end scenario post (no image). -/
def post9 : Post :=
  { post_url := "p9", username := "blue_note_band", caption := caption9,
    timestamp := ts2024_06_10, local_image_path := none }

/-- The record the pipeline emits for `post9`. -/
def record9 : ShowInfo :=
  { post_url := "p9", username := "blue_note_band", display_name := "blue_note_band",
    caption := caption9, date := "2024-06-10", location := "The Blue Note",
    time := "7:00 PM" }

/-- A text holding both a "Dth of Month" date and a numeric date. -/
def c7text : String := "14th of March, tickets 3/20"

/-- The reference timestamp 2024-03-01T12:00:00. -/
def tsMar1 : Int := daysFromCivil 2024 3 1 * 86400 + 12 * 3600

/-- A text whose only phrase after "at" starts with a lowercase letter. -/
def c8text : String := "Party at delta hall"

/-! ## General lemmas about the embedding -/

theorem startsWithL_iff (n h : List Char) : startsWithL n h = true ↔ n <+: h := by
  induction n generalizing h with
  | nil => simp [startsWithL]
  | cons a as2 ih =>
    cases h with
    | nil => simp [startsWithL]
    | cons b bs =>
      simp only [startsWithL, Bool.and_eq_true, beq_iff_eq, ih, List.cons_prefix_cons]

theorem containsL_iff (n h : List Char) : containsL n h = true ↔ n <:+: h := by
  induction h with
  | nil =>
    simp [containsL, startsWithL_iff, List.infix_nil, List.prefix_nil]
  | cons c cs ih =>
    simp only [containsL, Bool.or_eq_true, startsWithL_iff, ih, List.infix_cons_iff]

theorem countP_ge_two {α : Type} (p : α → Bool) (l : List α) (a b : α)
    (hab : a ≠ b) (ha : a ∈ l) (hb : b ∈ l) (hpa : p a = true) (hpb : p b = true) :
    2 ≤ l.countP p := by
  induction l with
  | nil => cases ha
  | cons x xs ih =>
    rw [List.countP_cons]
    rcases List.mem_cons.1 ha with rfl | ha2
    · rcases List.mem_cons.1 hb with hba | hb2
      · exact absurd hba.symm hab
      · have h1 : 0 < xs.countP p := List.countP_pos_iff.2 ⟨b, hb2, hpb⟩
        simp only [hpa, if_pos]
        omega
    · rcases List.mem_cons.1 hb with rfl | hb2
      · have h1 : 0 < xs.countP p := List.countP_pos_iff.2 ⟨a, ha2, hpa⟩
        simp only [hpb, if_pos]
        omega
      · have := ih ha2 hb2
        omega

theorem buildDate_tod (ts : Int) (f : Option Int × Option Int × Option Int × Option Int)
    (d : Int) (h : buildDate ts f = some d) : d % 86400 = ts % 86400 := by
  obtain ⟨yO, mO, dO, wO⟩ := f
  simp only [buildDate] at h
  split at h
  · rcases wO with _ | w <;> rcases dO with _ | dd <;>
      (injection h with h; omega)
  · exact absurd h (by simp)

theorem parseDate_tod (s : List Char) (ts d : Int) (h : parseDate s ts = some d) :
    d % 86400 = ts % 86400 := by
  simp only [parseDate] at h
  split at h
  · exact absurd h (by simp)
  · exact buildDate_tod ts _ d h

theorem acceptDate_window (ts d : Int) (h : d % 86400 = ts % 86400) :
    acceptDate ts d = true ↔ (midnightOf ts ≤ d ∨ ts - d ≤ 7 * 86400) := by
  simp only [acceptDate, midnightOf, Bool.or_eq_true, decide_eq_true_eq]
  constructor
  · rintro (h1 | h2)
    · exact Or.inl h1
    · right; omega
  · rintro (h1 | h2)
    · exact Or.inl h1
    · right; omega

theorem tryCand_some (ts : Int) (s : List Char) (d : Int) (h : tryCand ts s = some d) :
    parseDate s ts = some d ∧ acceptDate ts d = true := by
  unfold tryCand at h
  split at h
  · exact absurd h (by simp)
  · rename_i d0 hp
    split at h
    · rename_i hacc
      injection h with h
      subst h
      exact ⟨hp, hacc⟩
    · exact absurd h (by simp)

theorem processPost_some (recover : String → Int → OcrInfo) (nmap : List (String × String))
    (post : Post) (r : ShowInfo)
    (h : (processPost recover nmap post).1 = some r) :
    r = recordOf recover nmap (parse_show_info post.caption post.timestamp) post
    ∧ (parse_show_info post.caption post.timestamp).is_show = true
    ∧ (r.date ≠ "Unknown" ∨ r.location ≠ "Unknown") := by
  have h2 : emitOf recover nmap post = some r := h
  simp only [emitOf] at h2
  split at h2
  · rename_i hs
    split at h2
    · rename_i hk
      injection h2 with h2
      subst h2
      refine ⟨rfl, hs, ?_⟩
      simp only [Bool.or_eq_true, bne_iff_ne] at hk
      exact hk
    · exact absurd h2 (by simp)
  · exact absurd h2 (by simp)

theorem mergedOf_date_keep (recover : String → Int → OcrInfo) (ci : CaptionInfo)
    (post : Post) (d : String) (hd : ci.date = some d) (hne : d ≠ "") :
    (mergedOf recover ci post).1 = some d := by
  have ht : truthy (some d) = true := by simp [truthy, hne]
  unfold mergedOf
  split
  · simp [mergeDate, ht, hd]
  · exact hd

theorem mergedOf_loc_keep (recover : String → Int → OcrInfo) (ci : CaptionInfo)
    (post : Post) (l : String) (hl : ci.location = some l) (h1 : l ≠ "") (h2 : l ≠ "Unknown") :
    (mergedOf recover ci post).2.1 = l := by
  have ho : orUnknown ci.location = l := by simp [orUnknown, hl, h1]
  unfold mergedOf
  split
  · simp [mergeLoc, ho, h2]
  · exact ho

theorem mergedOf_time_keep (recover : String → Int → OcrInfo) (ci : CaptionInfo)
    (post : Post) (t : String) (ht : ci.time = some t) (h1 : t ≠ "") (h2 : t ≠ "Unknown") :
    (mergedOf recover ci post).2.2 = t := by
  have ho : orUnknown ci.time = t := by simp [orUnknown, ht, h1]
  unfold mergedOf
  split
  · simp [mergeTime, ho, h2]
  · exact ho

/-! ## The claims -/

/-- C3: the classifier `is_show_post` returns `false` on empty text;
it returns `true` whenever at least two distinct members of the keyword
list occur in the lower-cased text, regardless of any date or time; and
with fewer than two keywords it returns `true` exactly when some date
pattern matches and one of the five event words occurs. -/
theorem c3_classifier_contract (text : String) :
    (text = "" → is_show_post text = false)
    ∧ (2 ≤ keywordCount text → is_show_post text = true)
    ∧ (keywordCount text < 2 →
        (is_show_post text = true ↔ (hasDatePattern text = true ∧ hasEventWord text = true))) := by
  refine ⟨?_, ?_, ?_⟩
  · intro h
    subst h
    decide
  · intro h
    by_cases ht : text = ""
    · subst ht
      have h0 : keywordCount ("") = 0 := by decide
      omega
    · unfold is_show_post
      rw [if_neg ht, if_pos h]
  · intro h
    by_cases ht : text = ""
    · subst ht
      constructor
      · intro hfalse
        exact absurd hfalse (by decide)
      · rintro ⟨-, hew⟩
        exact absurd hew (by decide)
    · unfold is_show_post
      rw [if_neg ht, if_neg (by omega : ¬ 2 ≤ keywordCount text)]
      simp [Bool.and_eq_true]

/-- Witness for C3, at the empty text. -/
theorem c3_classifier_contract_witness : is_show_post ("") = false :=
  (c3_classifier_contract ("")).1 rfl

/-- C10: classifier keyword detection is substring-based.  Any text whose
lower-cased form contains "slideshow" and "delivery" thereby contains the
keywords "show" and "live" as substrings, so `is_show_post` accepts it,
although it has no standalone event vocabulary. -/
theorem c10_substring_keywords (text : String)
    (h1 : containsL ("slideshow".toList) (pyLower text) = true)
    (h2 : containsL ("delivery".toList) (pyLower text) = true) :
    is_show_post text = true := by
  have hshow : containsL ("show".toList) (pyLower text) = true := by
    rw [containsL_iff]
    exact List.IsInfix.trans ((containsL_iff _ _).1 (by decide)) ((containsL_iff _ _).1 h1)
  have hlive : containsL ("live".toList) (pyLower text) = true := by
    rw [containsL_iff]
    exact List.IsInfix.trans ((containsL_iff _ _).1 (by decide)) ((containsL_iff _ _).1 h2)
  have hkw : 2 ≤ keywordCount text := by
    unfold keywordCount
    exact countP_ge_two _ _ ("show".toList) ("live".toList)
      (by decide) (by decide) (by decide) hshow hlive
  have ht : text ≠ "" := by
    intro h
    subst h
    exact absurd h1 (by decide)
  unfold is_show_post
  rw [if_neg ht, if_pos hkw]

/-- Witness for C10: a slideshow-delivery text is classified as a show. -/
theorem c10_substring_keywords_witness : is_show_post ("My slideshow delivery") = true :=
  c10_substring_keywords ("My slideshow delivery") (by decide) (by decide)

/-- C4: any date returned by `extract_date` lies on or after the
reference midnight or at most 7 days in the past (for pattern candidates
this holds because parsing keeps the reference time of day, so the
`timedelta.days <= 7` test coincides with a 7-day window); a candidate
exactly 7 days back is accepted, 8 days back is rejected, one day ahead
and the reference instant itself are accepted; and a rejected candidate
makes the loop move on to the next candidate. -/
theorem c4_acceptance_window (text : String) (ts d e : Int) (s : List Char)
    (cs : List (List Char)) :
    (extract_date text ts = some d → midnightOf ts ≤ d ∨ ts - d ≤ 7 * 86400)
    ∧ acceptDate ts (ts - 7 * 86400) = true
    ∧ acceptDate ts (ts - 8 * 86400) = false
    ∧ acceptDate ts (ts + 86400) = true
    ∧ acceptDate ts ts = true
    ∧ (parseDate s ts = some e → acceptDate ts e = false → tryCand ts s = none)
    ∧ (tryCand ts s = none →
        List.findSome? (tryCand ts) (s :: cs) = List.findSome? (tryCand ts) cs) := by
  refine ⟨?_, ?_, ?_, ?_, ?_, ?_, ?_⟩
  · intro h
    unfold extract_date at h
    split at h
    · exact absurd h (by simp)
    · split at h
      · rename_i d0 hfs
        injection h with h
        subst h
        obtain ⟨l1, a, l2, -, hfa, -⟩ := List.findSome?_eq_some_iff.1 hfs
        obtain ⟨hp, hacc⟩ := tryCand_some ts a d0 hfa
        exact (acceptDate_window ts d0 (parseDate_tod a ts d0 hp)).1 hacc
      · dsimp only at h
        split at h
        · injection h with h
          subst h
          left
          omega
        · split at h
          · injection h with h
            subst h
            left
            omega
          · exact absurd h (by simp)
  · simp only [acceptDate, midnightOf, Bool.or_eq_true, decide_eq_true_eq]
    right
    omega
  · simp only [acceptDate, midnightOf]
    rw [Bool.or_eq_false_iff]
    constructor <;> (rw [decide_eq_false_iff_not]; omega)
  · simp only [acceptDate, midnightOf, Bool.or_eq_true, decide_eq_true_eq]
    left
    omega
  · simp only [acceptDate, midnightOf, Bool.or_eq_true, decide_eq_true_eq]
    left
    omega
  · intro hp hacc
    simp [tryCand, hp, hacc]
  · intro h0
    simp [List.findSome?_cons, h0]

/-- Witness for C4: an unparseable candidate is skipped and the loop
continues with the remaining candidates. -/
theorem c4_acceptance_window_witness :
    List.findSome? (tryCand 43200) (("zzz".toList) :: []) = List.findSome? (tryCand 43200) [] :=
  (c4_acceptance_window ("") 43200 0 0 ("zzz".toList) []).2.2.2.2.2.2 (by decide)

/-- C1 counterexample: the caption "Show tonight at Unknown" yields the
caption-derived location value "Unknown", yet the merge overwrites it
with the image-derived "The Venue" — an image-derived value does replace
a caption-derived value, so the claim as stated is false. -/
theorem c1_counterexample :
    (parse_show_info c1caption ts2024_06_10).location = some ("Unknown")
    ∧ (processPost c1ocr [] c1post).1.map ShowInfo.location = some ("The Venue")
    ∧ (("The Venue" : String) ≠ "Unknown") :=
  ⟨by decide, by decide, by decide⟩

/-- C1 (amended): the fill-only-missing merge keeps every caption-derived
date, and every caption-derived location or time that is non-empty and
distinct from the sentinel "Unknown" — a caption-derived location equal
to the literal sentinel is indistinguishable from absence and may be
overwritten.  In particular a caption yielding date 2024-05-01 and no
location, merged against image text yielding date 2024-05-02 and
location "The Venue", gives date 2024-05-01 and location "The Venue". -/
theorem c1_fill_only_missing (recover : String → Int → OcrInfo)
    (nmap : List (String × String)) (post : Post) (r : ShowInfo)
    (h : (processPost recover nmap post).1 = some r) :
    (∀ d, (parse_show_info post.caption post.timestamp).date = some d → d ≠ "" →
      r.date = d)
    ∧ (∀ l, (parse_show_info post.caption post.timestamp).location = some l →
        l ≠ "" → l ≠ "Unknown" → r.location = l)
    ∧ (∀ t, (parse_show_info post.caption post.timestamp).time = some t →
        t ≠ "" → t ≠ "Unknown" → r.time = t)
    ∧ (processPost fillOcr [] fillPost).1.map ShowInfo.date = some ("2024-05-01")
    ∧ (processPost fillOcr [] fillPost).1.map ShowInfo.location = some ("The Venue") := by
  obtain ⟨hr, -, -⟩ := processPost_some recover nmap post r h
  subst hr
  refine ⟨?_, ?_, ?_, by decide, by decide⟩
  · intro d hd hne
    have hm := mergedOf_date_keep recover (parse_show_info post.caption post.timestamp) post d hd hne
    dsimp only [recordOf]
    rw [hm]
    simp [truthy, getS, bne_iff_ne, hne]
  · intro l hl h1 h2
    dsimp only [recordOf]
    exact mergedOf_loc_keep recover _ post l hl h1 h2
  · intro t ht h1 h2
    dsimp only [recordOf]
    exact mergedOf_time_keep recover _ post t ht h1 h2

/-- Witness for C1 (amended): the caption-derived date of `fillPost`
survives the merge. -/
theorem c1_fill_only_missing_witness :
    (recordOf fillOcr [] (parse_show_info fillPost.caption fillPost.timestamp) fillPost).date
      = "2024-05-01" :=
  (c1_fill_only_missing fillOcr [] fillPost _ (by decide)).1 ("2024-05-01")
    (by decide) (by decide)

/-- C2: every record emitted by `process_posts` has a date or a location
different from "Unknown"; the both-"Unknown" merged result of `dropPost`
produces no record, while `keepPost`, whose merged result has date
"Unknown" but a concrete location, is kept. -/
theorem c2_inclusion_filter (recover : String → Int → OcrInfo) (nmap : List (String × String))
    (posts : List Post) (r : ShowInfo) (h : r ∈ process_posts recover nmap posts) :
    (r.date ≠ "Unknown" ∨ r.location ≠ "Unknown")
    ∧ (processPost ocrNothing [] dropPost).1 = none
    ∧ process_posts ocrNothing [] [keepPost] = [keepRecord]
    ∧ keepRecord.date = "Unknown" ∧ keepRecord.location = "Moonlight Lounge" := by
  refine ⟨?_, by decide, by decide, rfl, rfl⟩
  obtain ⟨p, -, hp⟩ := List.mem_filterMap.1 h
  exact (processPost_some recover nmap p r hp).2.2

/-- Witness for C2 at the singleton input `[keepPost]`. -/
theorem c2_inclusion_filter_witness :
    keepRecord.date ≠ "Unknown" ∨ keepRecord.location ≠ "Unknown" :=
  (c2_inclusion_filter ocrNothing [] [keepPost] keepRecord (by decide)).1

/-- C5 counterexample: for `c5post` the caption yields no time, OCR is
invoked (the date is missing) and its time "9:00 PM" is written into the
final record — the image-text step does set the time field, so the claim
as stated is false. -/
theorem c5_counterexample :
    (parse_show_info c5caption ts2024_06_10).time = none
    ∧ (processPost c5ocr [] c5post).1.map ShowInfo.time = some ("9:00 PM")
    ∧ (("9:00 PM" : String) ≠ "Unknown") :=
  ⟨by decide, by decide, by decide⟩

/-- C5 (amended): a non-empty, non-sentinel caption-derived time is never
replaced; but when the caption yields no time (the field defaulted to
"Unknown") and OCR was invoked and recovered a truthy time, that OCR time
IS written into the record; without OCR invocation the defaulted caption
time stands. -/
theorem c5_time_backfill (recover : String → Int → OcrInfo)
    (nmap : List (String × String)) (post : Post) (r : ShowInfo)
    (h : (processPost recover nmap post).1 = some r) :
    (∀ t, (parse_show_info post.caption post.timestamp).time = some t →
      t ≠ "" → t ≠ "Unknown" → r.time = t)
    ∧ (needsOcr (parse_show_info post.caption post.timestamp) post = false →
        r.time = orUnknown (parse_show_info post.caption post.timestamp).time)
    ∧ (needsOcr (parse_show_info post.caption post.timestamp) post = true →
        orUnknown (parse_show_info post.caption post.timestamp).time = "Unknown" →
        truthy (recover (getS post.local_image_path) post.timestamp).time = true →
        r.time = getS (recover (getS post.local_image_path) post.timestamp).time) := by
  obtain ⟨hr, -, -⟩ := processPost_some recover nmap post r h
  subst hr
  refine ⟨?_, ?_, ?_⟩
  · intro t ht h1 h2
    dsimp only [recordOf]
    exact mergedOf_time_keep recover _ post t ht h1 h2
  · intro hn
    dsimp only [recordOf]
    unfold mergedOf
    rw [if_neg (by simp [hn])]
  · intro hn ht htr
    dsimp only [recordOf]
    unfold mergedOf
    rw [if_pos hn]
    dsimp only
    rw [ht]
    simp [mergeTime, htr]

/-- Witness for C5 (amended): the OCR time lands in the record of `c5post`. -/
theorem c5_time_backfill_witness :
    (recordOf c5ocr [] (parse_show_info c5post.caption c5post.timestamp) c5post).time
      = "9:00 PM" :=
  (c5_time_backfill c5ocr [] c5post _ (by decide)).2.2 (by decide) (by decide) (by decide)

/-- C6: per post the OCR collaborator is invoked at most once; never when
the classifier rejects the caption; and exactly once precisely when the
classifier accepted, the caption-derived date is falsy or the defaulted
location is "Unknown", and an image is present. -/
theorem c6_ocr_gating (recover : String → Int → OcrInfo) (nmap : List (String × String))
    (post : Post) :
    (processPost recover nmap post).2 ≤ 1
    ∧ ((parse_show_info post.caption post.timestamp).is_show = false →
        (processPost recover nmap post).2 = 0)
    ∧ ((processPost recover nmap post).2 = 1 ↔
        (parse_show_info post.caption post.timestamp).is_show = true
        ∧ (truthy (parse_show_info post.caption post.timestamp).date = false
            ∨ orUnknown (parse_show_info post.caption post.timestamp).location = "Unknown")
        ∧ imagePresent post = true) := by
  refine ⟨?_, ?_, ?_⟩
  · show ocrCalls post ≤ 1
    unfold ocrCalls
    dsimp only
    split
    · split
      · omega
      · omega
    · omega
  · intro hs
    show ocrCalls post = 0
    unfold ocrCalls
    dsimp only
    rw [if_neg (by simp [hs])]
  · show ocrCalls post = 1 ↔ _
    unfold ocrCalls
    dsimp only
    by_cases hs : (parse_show_info post.caption post.timestamp).is_show = true
    · rw [if_pos hs]
      by_cases hn : needsOcr (parse_show_info post.caption post.timestamp) post = true
      · rw [if_pos hn]
        simp only [needsOcr, Bool.and_eq_true, Bool.or_eq_true, Bool.not_eq_true',
          beq_iff_eq] at hn
        simp [hs, hn.1, hn.2]
      · rw [if_neg hn]
        constructor
        · intro h01
          exact absurd h01 (by omega)
        · rintro ⟨-, hab, hc⟩
          refine absurd ?_ hn
          simp only [needsOcr, Bool.and_eq_true, Bool.or_eq_true, Bool.not_eq_true',
            beq_iff_eq]
          exact ⟨hab, hc⟩
    · rw [if_neg hs]
      constructor
      · intro h01
        exact absurd h01 (by omega)
      · rintro ⟨hs2, -, -⟩
        exact absurd hs2 hs

/-- Witness for C6: the classifier rejects the sunset caption, and no OCR
call is made despite the attached image. -/
theorem c6_ocr_gating_witness : (processPost ocrNothing [] sunsetPost).2 = 0 :=
  (c6_ocr_gating ocrNothing [] sunsetPost).2.1 (by decide)

/-- C7 counterexample: in `c7text` the "Dth of Month" pattern finds the
acceptable candidate "14th of March", yet `extract_date` returns the date
of the numeric candidate "3/20" — the month-name-last form does not take
priority over the numeric form, so the claim as stated is false. -/
theorem c7_counterexample :
    extract_date c7text tsMar1 = some (daysFromCivil 2024 3 20 * 86400 + 12 * 3600)
    ∧ (reFindIter datePat5 c7text.toList).map RMatch.m0 = [("14th of March".toList)]
    ∧ tryCand tsMar1 ("14th of March".toList)
        = some (daysFromCivil 2024 3 14 * 86400 + 12 * 3600)
    ∧ ((daysFromCivil 2024 3 20 * 86400 + 12 * 3600 : Int)
        ≠ daysFromCivil 2024 3 14 * 86400 + 12 * 3600) :=
  ⟨by decide, by decide, by decide, by decide⟩

/-- C7 (amended): the pattern list does try month-name-first forms such
as "March 14" first and the numeric form second, but the "Dth of Month"
form is the last pattern, after the numeric one; so "March 14" wins over
"3/20", while "14th of March" loses to "3/20". -/
theorem c7_pattern_order :
    DATE_PATTERNS = [datePat0, datePat1, datePat2, datePat3, datePat4, datePat5]
    ∧ extract_date ("March 14 or 3/20, tickets now") tsMar1
        = some (daysFromCivil 2024 3 14 * 86400 + 12 * 3600)
    ∧ extract_date c7text tsMar1 = some (daysFromCivil 2024 3 20 * 86400 + 12 * 3600) :=
  ⟨rfl, by decide, by decide⟩

/-- C8 counterexample: in `c8text` the phrase after "at" starts with a
lowercase letter and the text holds no "@" at all (so the handle pattern
finds nothing), yet `extract_location` returns "delta hall" — produced by
the venue-type-word pattern, so the claim as stated is false. -/
theorem c8_counterexample :
    extract_location c8text = some ("delta hall")
    ∧ reFindIter locPat2 c8text.toList = []
    ∧ c8text.toList.contains ('@') = false :=
  ⟨by decide, by decide, by decide⟩

/-- C8 (amended): because every location pattern is matched with
`re.IGNORECASE`, the leading `[A-Z]` class accepts every ASCII letter, so
the venue-type-word and generic patterns also match phrases that start
with a lowercase letter. -/
theorem c8_ignorecase (c : Char) (h1 : 'a' ≤ c) (h2 : c ≤ 'z') :
    classUpper c = true ∧ extract_location c8text = some ("delta hall") := by
  refine ⟨?_, by decide⟩
  simp only [classUpper, Bool.or_eq_true, Bool.and_eq_true, decide_eq_true_eq]
  exact Or.inr ⟨h1, h2⟩

/-- Witness for C8 (amended) at the letter of "delta". -/
theorem c8_ignorecase_witness : classUpper ('d') = true :=
  (c8_ignorecase ('d') (by decide) (by decide)).1

/-- C9: the end-to-end scenario.  The caption is classified as a show;
no date-pattern candidate survives parsing (so the tonight rule fires,
producing 20:00 of the reference day, rendered "2024-06-10"); the
location is "The Blue Note" and the time "7:00 PM"; the record passes the
inclusion filter and is emitted, with no OCR invocation. -/
theorem c9_end_to_end :
    is_show_post caption9 = true
    ∧ List.findSome? (tryCand ts2024_06_10) (dateCandidates caption9) = none
    ∧ extract_date caption9 ts2024_06_10 = some (midnightOf ts2024_06_10 + 20 * 3600)
    ∧ (parse_show_info caption9 ts2024_06_10).date = some ("2024-06-10")
    ∧ extract_location caption9 = some ("The Blue Note")
    ∧ extract_time caption9 = some ("7:00 PM")
    ∧ process_posts ocrNothing [] [post9] = [record9]
    ∧ (processPost ocrNothing [] post9).2 = 0 :=
  ⟨by decide, by decide, by decide, by decide, by decide, by decide, by decide, by decide⟩

end ShowFinder



